import Mathlib

/-!
Shallow embedding of the iPod-style music-player firmware
(`src/lcdScreen1/lcdScreen1.ino`, TFT + AudioTools variant, and the
metadata generator of `src/unnamed/part_000`).

The embedding models the player state machine, the menu/navigation
engine, the redraw bookkeeping, and the filename-heuristic metadata
fallback.  External collaborators (SD card, I2S sink, MP3 decoder)
are modelled by an `Env` of oracles (whether `source.open` succeeds
for a given catalog index, what `info.duration()` reports) and by
explicit boolean fields tracking whether the decoder is running and
whether the source file is open.  C++ `int` variables are modelled
as `Int`; `millis()` timestamps as `Nat`.  A modulo whose divisor is
zero is undefined behaviour in C++, so the one function that can
reach it (`handleNextSong`) returns `Option St` and yields `none`
exactly when the C++ code would divide by zero.
-/

set_option autoImplicit false

namespace Ipod

/-- The three screens of the TFT variant (`enum PlayerState`). -/
inductive Screen
  | home
  | menu
  | playing
deriving DecidableEq, Repr

/-- The four menus (`enum MenuType`). -/
inductive Menu
  | mmain
  | martists
  | malbums
  | msongs
deriving DecidableEq, Repr

/-- One catalog entry (`struct Song`). -/
structure Song where
  filename : String
  title : String
  artist : String
  album : String
  albumArt : String
  duration : Int
deriving DecidableEq, Repr

/-- String constants appearing in the sketch. -/
def strMusic : String := "Music"

def strArtists : String := "Artists"

def strAlbums : String := "Albums"

def strSongs : String := "Songs"

def strSettings : String := "Settings"

def strBack : String := "Back"

def musicDir : String := "/music/"

def mp3Ext : String := ".mp3"

/-- Default `Song` used only to totalise list indexing that the code
guards by an explicit bounds check. -/
def defaultSong : Song :=
  { filename := strBack, title := strBack, artist := strBack,
    album := strBack, albumArt := strBack, duration := 0 }

/-- Arduino `String.endsWith`: does `s` end with `suff`? -/
def strEndsWith (s suff : String) : Bool :=
  Nat.ble suff.toList.length s.toList.length &&
    s.toList.drop (s.toList.length - suff.toList.length) == suff.toList

/-- Append a name to a first-seen-order list if it is not already
present (the membership scans of `loadMetadata`). -/
def addUnique (l : List String) (x : String) : List String :=
  if l.contains x then l else l ++ [x]

/-- Derived unique artist list, first-seen order (`loadMetadata`). -/
def uniqueArtists (songs : List Song) : List String :=
  songs.foldl (fun acc s => addUnique acc s.artist) []

/-- Derived unique album list, first-seen order (`loadMetadata`). -/
def uniqueAlbums (songs : List Song) : List String :=
  songs.foldl (fun acc s => addUnique acc s.album) []

/-- `populateMenuItems()`: the display strings of the active menu. -/
def populateMenuItems (songs : List Song) : Menu → List String
  | Menu.mmain => [strMusic, strArtists, strAlbums, strSongs, strSettings, strBack]
  | Menu.martists => uniqueArtists songs ++ [strBack]
  | Menu.malbums => uniqueAlbums songs ++ [strBack]
  | Menu.msongs => songs.map (fun s => s.title) ++ [strBack]

/-- Whole mutable state of the sketch (the top-level globals of the
TFT + AudioTools variant). -/
structure St where
  currentMenu : Menu
  currentMenuItems : List String
  currentState : Screen
  previousState : Screen
  selectedMenuIndex : Int
  menuOffset : Int
  playingSongIndex : Int
  isPlaying : Bool
  currentSongTimeSec : Int
  songDurationSec : Int
  lastPrevPressTime : Nat
  prevSelectedMenuIndex : Int
  prevSelectedSongIndex : Int
  prevSongTimeSec : Int
  prevIsPlaying : Bool
  prevPlayingSongIndex : Int
  needsRedraw : Bool
  needsFullRedraw : Bool
  decoderRunning : Bool
  sourceOpen : Bool
deriving DecidableEq, Repr

/-- Oracles for the external collaborators: whether `source.open`
succeeds for the file of a given catalog index, and the duration
`info.duration()` reports for it. -/
structure Env where
  openOk : Nat → Bool
  duration : Nat → Int

/-- Initial values of the sketch's globals. -/
def initSt (songs : List Song) : St :=
  { currentMenu := Menu.mmain
    currentMenuItems := populateMenuItems songs Menu.mmain
    currentState := Screen.home
    previousState := Screen.home
    selectedMenuIndex := 0
    menuOffset := 0
    playingSongIndex := 0
    isPlaying := false
    currentSongTimeSec := 0
    songDurationSec := 0
    lastPrevPressTime := 0
    prevSelectedMenuIndex := -1
    prevSelectedSongIndex := -1
    prevSongTimeSec := -1
    prevIsPlaying := false
    prevPlayingSongIndex := -1
    needsRedraw := true
    needsFullRedraw := true
    decoderRunning := false
    sourceOpen := false }

/-- `DOUBLE_CLICK_MS`. -/
def doubleClickMs : Nat := 300

/-- `max_items_on_screen` of the menu handlers. -/
def maxItemsOnScreen : Int := 5

/-- `handleBackButton()`. -/
def handleBackButton (songs : List Song) (s : St) : St :=
  let s1 :=
    match s.currentMenu with
    | Menu.mmain => { s with currentState := Screen.home }
    | _ => { s with currentMenu := Menu.mmain }
  { s1 with
    selectedMenuIndex := 0
    menuOffset := 0
    currentMenuItems := populateMenuItems songs s1.currentMenu
    needsRedraw := true
    needsFullRedraw := true }

/-- `startPlayback(int songIndex)`. -/
def startPlayback (env : Env) (songs : List Song) (songIndex : Int) (s : St) : St :=
  if songIndex < 0 ∨ (songs.length : Int) ≤ songIndex then s
  else
    let s1 := { s with
      playingSongIndex := songIndex
      decoderRunning := false
      sourceOpen := false }
    if env.openOk songIndex.toNat = false then s1
    else
      let d := env.duration songIndex.toNat
      let s2 := { s1 with
        sourceOpen := true
        songDurationSec := if d ≤ 0 then 1 else d }
      let fileToPlay := musicDir ++ (songs.getD songIndex.toNat defaultSong).filename
      if strEndsWith fileToPlay mp3Ext = false then
        { s2 with sourceOpen := false }
      else
        { s2 with
          decoderRunning := true
          isPlaying := true
          currentSongTimeSec := 0
          prevSongTimeSec := -1
          needsRedraw := true
          needsFullRedraw := true }

/-- `handleNextSong()`.  The C++ body computes
`(playingSongIndex + 1) % songs.size()` with no emptiness guard;
when `songs.size() == 0` this is an integral modulo by zero, which
is undefined behaviour (a crash on the target), modelled as `none`. -/
def handleNextSong (env : Env) (songs : List Song) (s : St) : Option St :=
  if songs.length = 0 then none
  else
    let s1 := { s with prevPlayingSongIndex := s.playingSongIndex }
    let nextIndex := (s1.playingSongIndex + 1) % (songs.length : Int)
    some (startPlayback env songs nextIndex s1)

/-- The Select branch of `handleMenuInput()`. -/
def menuSelect (env : Env) (songs : List Song) (s : St) : St :=
  if s.selectedMenuIndex = (s.currentMenuItems.length : Int) - 1 then
    handleBackButton songs s
  else
    match s.currentMenu with
    | Menu.mmain =>
      let m :=
        if s.selectedMenuIndex = 0 then Menu.msongs
        else if s.selectedMenuIndex = 1 then Menu.martists
        else if s.selectedMenuIndex = 2 then Menu.malbums
        else if s.selectedMenuIndex = 3 then Menu.msongs
        else s.currentMenu
      { s with
        currentMenu := m
        selectedMenuIndex := 0
        menuOffset := 0
        currentMenuItems := populateMenuItems songs m
        needsRedraw := true
        needsFullRedraw := true }
    | Menu.martists => s
    | Menu.malbums => s
    | Menu.msongs =>
      startPlayback env songs s.selectedMenuIndex { s with currentState := Screen.playing }

/-- The Next/Down branch of `handleMenuInput()`; `n` is
`currentMenuItems.size()` (always at least 1: every menu carries a
trailing Back entry). -/
def menuNext (n : Nat) (s : St) : St :=
  let sel := (s.selectedMenuIndex + 1) % (n : Int)
  let off :=
    if s.menuOffset + maxItemsOnScreen ≤ sel then sel - maxItemsOnScreen + 1
    else s.menuOffset
  { s with selectedMenuIndex := sel, menuOffset := off, needsRedraw := true }

/-- The Prev/Up branch of `handleMenuInput()`. -/
def menuPrev (n : Nat) (s : St) : St :=
  let sel := s.selectedMenuIndex - 1
  if sel < 0 then
    { s with
      selectedMenuIndex := (n : Int) - 1
      menuOffset := max 0 ((n : Int) - maxItemsOnScreen)
      needsRedraw := true }
  else if sel < s.menuOffset then
    { s with selectedMenuIndex := sel, menuOffset := sel, needsRedraw := true }
  else
    { s with selectedMenuIndex := sel, needsRedraw := true }

/-- The Select branch of `handlePlayingInput()` (play/pause toggle). -/
def playingSelect (s : St) : St :=
  { s with
    prevIsPlaying := s.isPlaying
    isPlaying := !s.isPlaying
    needsRedraw := true }

/-- The Prev/Up branch of `handlePlayingInput()`: double-click
disambiguation.  `pressTime` is the `millis()` reading at the edge. -/
def playingPrev (pressTime : Nat) (s : St) : St :=
  if pressTime - s.lastPrevPressTime < doubleClickMs then
    { s with
      decoderRunning := false
      sourceOpen := false
      previousState := s.currentState
      currentState := Screen.menu
      isPlaying := false
      prevSelectedSongIndex := -1
      needsRedraw := true
      needsFullRedraw := true
      lastPrevPressTime := 0 }
  else
    { s with
      prevSongTimeSec := s.currentSongTimeSec
      currentSongTimeSec := 0
      lastPrevPressTime := pressTime
      needsRedraw := true }

/-- A menu navigation edge (Next/Down or Prev/Up). -/
inductive MenuOp
  | next
  | prev
deriving DecidableEq, Repr

/-- One menu navigation edge applied to the state. -/
def menuStep (n : Nat) (s : St) : MenuOp → St
  | MenuOp.next => menuNext n s
  | MenuOp.prev => menuPrev n s

/-- A finite sequence of menu navigation edges. -/
def runMenuOps (n : Nat) (ops : List MenuOp) (s : St) : St :=
  ops.foldl (menuStep n) s

/-- Which dynamic regions of the Playing screen a call of
`updateDisplay()` repaints (`drawHeader`/song-info block,
`updateProgressBar`, `updatePlayPauseButton`). -/
structure Repaints where
  songInfo : Bool
  progress : Bool
  playPause : Bool
deriving DecidableEq, Repr

/-- The state bookkeeping of `updateDisplay()`: the transition-detect
and full-redraw shadow reset, followed by the per-region shadow
comparisons of the active screen.  Returns the updated state and the
set of Playing-screen regions repainted by this call (all `false`
for the Home and Menu screens, which have no partial updates). -/
def updateDisplay (s : St) : St × Repaints :=
  let s :=
    if s.currentState ≠ s.previousState then
      { s with needsFullRedraw := true, previousState := s.currentState }
    else s
  let s :=
    if s.needsFullRedraw then
      { s with
        needsFullRedraw := false
        prevSelectedMenuIndex := -1
        prevSelectedSongIndex := -1
        prevSongTimeSec := -1
        prevIsPlaying := !s.isPlaying
        prevPlayingSongIndex := -1 }
    else s
  match s.currentState with
  | Screen.playing =>
    let rInfo := s.playingSongIndex ≠ s.prevPlayingSongIndex
    let s := if rInfo then { s with prevPlayingSongIndex := s.playingSongIndex } else s
    let rProg := s.currentSongTimeSec ≠ s.prevSongTimeSec
    let s := if rProg then { s with prevSongTimeSec := s.currentSongTimeSec } else s
    let rPlay := s.isPlaying ≠ s.prevIsPlaying
    let s := if rPlay then { s with prevIsPlaying := s.isPlaying } else s
    (s, { songInfo := rInfo, progress := rProg, playPause := rPlay })
  | _ => (s, { songInfo := false, progress := false, playPause := false })

end Ipod

namespace Meta0

/-!
Metadata generation of `src/unnamed/part_000` (`generateMetadata`):
per-file ID3v1 tag extraction followed by the filename-heuristic
fallback.  Strings are modelled as `List Char`; the tag-extraction
outcome is abstracted as a `TagInfo` of optional trimmed, nonempty
field values (exactly the condition under which the code overwrites
its defaults). -/

/-- The characters C's `isspace` accepts, which Arduino
`String.trim()` strips from both ends. -/
def isSpaceC (c : Char) : Bool :=
  c == ' ' || c == '\t' || c == '\n' || c == '\x0b' || c == '\x0c' || c == '\r'

/-- Arduino `String.trim()`. -/
def trimC (l : List Char) : List Char :=
  ((l.dropWhile isSpaceC).reverse.dropWhile isSpaceC).reverse

/-- Arduino `title.replace(".mp3", "")`: a single left-to-right pass
removing each occurrence of `".mp3"`. -/
def removeMp3 : List Char → List Char
  | '.' :: 'm' :: 'p' :: '3' :: rest => removeMp3 rest
  | c :: rest => c :: removeMp3 rest
  | [] => []

/-- Does the list start with the literal separator `" - "`? -/
def startsWithSep : List Char → Bool
  | ' ' :: '-' :: ' ' :: _ => true
  | _ => false

/-- Arduino `indexOf(" - ")`: index of the first occurrence of the
separator, `none` when absent (the C++ call returns `-1`). -/
def sepIndex : List Char → Option Nat
  | [] => none
  | c :: rest =>
    if startsWithSep (c :: rest) then some 0
    else
      match sepIndex rest with
      | some k => some (k + 1)
      | none => none

/-- The ID3v1 fields the tag scan recovered: `some v` exactly when
the 30-byte field, trimmed, was nonempty (then the code overwrites
the default with `v`). -/
structure TagInfo where
  title : Option (List Char)
  artist : Option (List Char)
  album : Option (List Char)
deriving DecidableEq, Repr

/-- Tag extraction yielded nothing (no TAG block, or empty fields). -/
def noTags : TagInfo := { title := none, artist := none, album := none }

def unknownArtistS : String := "Unknown Artist"

def unknownAlbumS : String := "Unknown Album"

def unknownArtist : List Char := unknownArtistS.toList

def unknownAlbum : List Char := unknownAlbumS.toList

/-- The metadata fields written to `metadata.json` for one file. -/
structure MetaOut where
  title : List Char
  artist : List Char
  album : List Char
deriving DecidableEq, Repr

/-- The per-file metadata computation of `generateMetadata` in
`src/unnamed/part_000`: defaults from the filename, overwritten by
any ID3v1 fields found, then the filename heuristic
`if (artist == "Unknown Artist" && title.indexOf(" - ") > 0)`
splitting at the first separator. -/
def songMeta (filename : List Char) (tags : TagInfo) : MetaOut :=
  let title0 := removeMp3 filename
  let title := match tags.title with | some t => t | none => title0
  let artist := match tags.artist with | some a => a | none => unknownArtist
  let album := match tags.album with | some a => a | none => unknownAlbum
  match sepIndex title with
  | some dashPos =>
    if artist = unknownArtist ∧ 0 < dashPos then
      { artist := trimC (title.take dashPos)
        title := trimC (title.drop (dashPos + 3))
        album := album }
    else { title := title, artist := artist, album := album }
  | none => { title := title, artist := artist, album := album }

/-- Modelled from the spec's words (claim C10): if the cleaned
filename contains the literal separator `" - "`, split on its first
occurrence, left segment trimmed becoming the artist and right
segment trimmed becoming the title; otherwise title is the cleaned
filename, artist `"Unknown Artist"`, album `"Unknown Album"`. -/
def specFallback (cleaned : List Char) : MetaOut :=
  match sepIndex cleaned with
  | some d =>
    { artist := trimC (cleaned.take d)
      title := trimC (cleaned.drop (d + 3))
      album := unknownAlbum }
  | none =>
    { title := cleaned, artist := unknownArtist, album := unknownAlbum }

/-- The amended fallback: the split fires only when the separator's
first occurrence is at a strictly positive index (the code requires
`indexOf(" - ") > 0`, so a name beginning with the separator is not
split). -/
def specFallbackAmended (cleaned : List Char) : MetaOut :=
  match sepIndex cleaned with
  | some d =>
    if 0 < d then
      { artist := trimC (cleaned.take d)
        title := trimC (cleaned.drop (d + 3))
        album := unknownAlbum }
    else { title := cleaned, artist := unknownArtist, album := unknownAlbum }
  | none =>
    { title := cleaned, artist := unknownArtist, album := unknownAlbum }

/-- A filename that begins with the separator `" - "`. -/
def sepFileName : String := " - Song.mp3"

end Meta0

namespace Ipod

/-! ### Concrete fixtures for witnesses and counterexamples -/

def fnA : String := "A.mp3"

def fnB : String := "B.mp3"

def fnC : String := "C.mp3"

def titleA : String := "A"

def titleB : String := "B"

def titleC : String := "C"

def artX : String := "X"

def albY : String := "Y"

def artBmp : String := "Y.bmp"

def songA : Song :=
  { filename := fnA, title := titleA, artist := artX, album := albY,
    albumArt := artBmp, duration := 200 }

def songB : Song :=
  { filename := fnB, title := titleB, artist := artX, album := albY,
    albumArt := artBmp, duration := 200 }

def songC : Song :=
  { filename := fnC, title := titleC, artist := artX, album := albY,
    albumArt := artBmp, duration := 200 }

/-- A three-track catalog `[A, B, C]`. -/
def cat3 : List Song := [songA, songB, songC]

/-- Environment in which every file opens and reports duration 200. -/
def envAllOk : Env := { openOk := fun _ => true, duration := fun _ => 200 }

/-- Environment in which no file can be opened (missing/unreadable). -/
def envNoOpen : Env := { openOk := fun _ => false, duration := fun _ => 200 }

/-- On the Main menu (6 items), selection and scroll at `(0,0)`. -/
def mainMenuSt : St := { initSt cat3 with currentState := Screen.menu }

/-- On the Main menu with the last item (index 5, Back) selected. -/
def mainBackSt : St := { mainMenuSt with selectedMenuIndex := 5 }

/-- On the Songs menu of `cat3`, first track selected. -/
def songsMenuSt : St :=
  { initSt cat3 with
    currentState := Screen.menu
    currentMenu := Menu.msongs
    currentMenuItems := populateMenuItems cat3 Menu.msongs }

/-- About to redraw the Playing screen after a forced full redraw. -/
def pfrSt : St := { initSt cat3 with currentState := Screen.playing }

/-- Playing track A of `cat3`. -/
def playingSt : St :=
  { initSt cat3 with
    currentState := Screen.playing
    previousState := Screen.playing
    currentMenu := Menu.msongs
    currentMenuItems := populateMenuItems cat3 Menu.msongs
    isPlaying := true
    decoderRunning := true
    sourceOpen := true
    needsFullRedraw := false
    needsRedraw := false }

/-- The part of the claimed scroll invariant that the code really
maintains: the selection stays in range, the offset stays
nonnegative, and the selection stays strictly inside the upper edge
of the visible window. -/
def MenuInv (n : Nat) (s : St) : Prop :=
  0 ≤ s.selectedMenuIndex ∧ s.selectedMenuIndex < (n : Int) ∧
    0 ≤ s.menuOffset ∧ s.selectedMenuIndex < s.menuOffset + maxItemsOnScreen

/-! ### Claim theorems -/

/-- C1: the spec requires every catalog-index operation on an empty
catalog to be rejected as a guarded no-op, never computing modulo of
zero.  The code's `handleNextSong` computes
`(playingSongIndex + 1) % songs.size()` with no emptiness guard, so
with zero tracks it performs an integral modulo by zero (undefined
behaviour / crash), modelled as `none`: the code, not the claim, is
at fault. -/
theorem c1_next_on_empty_catalog_divides_by_zero (env : Env) (s : St) :
    handleNextSong env [] s = none := rfl

/-- C3 counterexample: on the 6-item Main menu, six Next presses
from `(selectedIndex, scrollOffset) = (0, 0)` wrap the selection to
index 0 but leave the scroll offset at 1, violating the claimed
invariant `scrollOffset ≤ selectedIndex`. -/
theorem c3_scroll_invariant_counterexample :
    (runMenuOps 6 (List.replicate 6 MenuOp.next) mainMenuSt).selectedMenuIndex = 0 ∧
    (runMenuOps 6 (List.replicate 6 MenuOp.next) mainMenuSt).menuOffset = 1 ∧
    ¬ ((runMenuOps 6 (List.replicate 6 MenuOp.next) mainMenuSt).menuOffset ≤
        (runMenuOps 6 (List.replicate 6 MenuOp.next) mainMenuSt).selectedMenuIndex) := by
  decide

/-- The two navigation fields of a Prev step, as conditionals. -/
theorem menuPrev_fields (n : Nat) (s : St) :
    (menuPrev n s).selectedMenuIndex =
      (if s.selectedMenuIndex - 1 < 0 then (n : Int) - 1
       else s.selectedMenuIndex - 1) ∧
    (menuPrev n s).menuOffset =
      (if s.selectedMenuIndex - 1 < 0 then max 0 ((n : Int) - maxItemsOnScreen)
       else if s.selectedMenuIndex - 1 < s.menuOffset then s.selectedMenuIndex - 1
       else s.menuOffset) := by
  simp only [menuPrev]
  refine ⟨?_, ?_⟩
  · split
    · rfl
    · split <;> rfl
  · split
    · rfl
    · split <;> rfl

/-- The two navigation fields of a Next step. -/
theorem menuNext_fields (n : Nat) (s : St) :
    (menuNext n s).selectedMenuIndex = (s.selectedMenuIndex + 1) % (n : Int) ∧
    (menuNext n s).menuOffset =
      (if s.menuOffset + maxItemsOnScreen ≤ (s.selectedMenuIndex + 1) % (n : Int) then
        (s.selectedMenuIndex + 1) % (n : Int) - maxItemsOnScreen + 1
       else s.menuOffset) := ⟨rfl, rfl⟩

theorem menuStep_inv {n : Nat} (hn : 1 ≤ n) {s : St} (h : MenuInv n s) (op : MenuOp) :
    MenuInv n (menuStep n s op) := by
  obtain ⟨h0, h1, h2, h3⟩ := h
  have hpos : (0 : Int) < (n : Int) := by exact_mod_cast hn
  cases op with
  | next =>
    have hmn : 0 ≤ (s.selectedMenuIndex + 1) % (n : Int) := Int.emod_nonneg _ hpos.ne'
    have hml : (s.selectedMenuIndex + 1) % (n : Int) < (n : Int) :=
      Int.emod_lt_of_pos _ hpos
    obtain ⟨hs, ho⟩ := menuNext_fields n s
    show MenuInv n (menuNext n s)
    unfold MenuInv
    rw [hs, ho]
    simp only [maxItemsOnScreen] at *
    generalize hm : (s.selectedMenuIndex + 1) % (n : Int) = m at *
    split_ifs <;> omega
  | prev =>
    obtain ⟨hs, ho⟩ := menuPrev_fields n s
    show MenuInv n (menuPrev n s)
    unfold MenuInv
    rw [hs, ho]
    simp only [maxItemsOnScreen] at *
    split_ifs <;> omega

theorem runMenuOps_inv {n : Nat} (hn : 1 ≤ n) (ops : List MenuOp) {s : St}
    (h : MenuInv n s) : MenuInv n (runMenuOps n ops s) := by
  induction ops generalizing s with
  | nil => exact h
  | cons op rest ih => exact ih (menuStep_inv hn h op)

/-- C3 amended: for every menu with `n ≥ 1` items and every finite
sequence of Next/Prev operations starting from
`(selectedIndex, scrollOffset) = (0, 0)`, afterwards
`0 ≤ selectedIndex < n`, `scrollOffset ≥ 0`, and
`selectedIndex < scrollOffset + visibleRows` (`visibleRows = 5`);
the claimed lower containment `scrollOffset ≤ selectedIndex` is not
maintained (it fails when a Next press wraps to index 0 while the
offset shows the last page). -/
theorem c3_scroll_invariant_amended (n : Nat) (ops : List MenuOp) (s : St)
    (hn : 1 ≤ n) (hsel : s.selectedMenuIndex = 0) (hoff : s.menuOffset = 0) :
    0 ≤ (runMenuOps n ops s).selectedMenuIndex ∧
    (runMenuOps n ops s).selectedMenuIndex < (n : Int) ∧
    0 ≤ (runMenuOps n ops s).menuOffset ∧
    (runMenuOps n ops s).selectedMenuIndex <
      (runMenuOps n ops s).menuOffset + maxItemsOnScreen := by
  have hpos : (0 : Int) < (n : Int) := by exact_mod_cast hn
  have h : MenuInv n s := by
    refine ⟨by omega, by omega, by omega, ?_⟩
    simp only [maxItemsOnScreen]
    omega
  exact runMenuOps_inv hn ops h

theorem c3_scroll_invariant_amended_witness :
    0 ≤ (runMenuOps 6 [MenuOp.next] mainMenuSt).selectedMenuIndex ∧
    (runMenuOps 6 [MenuOp.next] mainMenuSt).selectedMenuIndex < ((6 : Nat) : Int) ∧
    0 ≤ (runMenuOps 6 [MenuOp.next] mainMenuSt).menuOffset ∧
    (runMenuOps 6 [MenuOp.next] mainMenuSt).selectedMenuIndex <
      (runMenuOps 6 [MenuOp.next] mainMenuSt).menuOffset + maxItemsOnScreen :=
  c3_scroll_invariant_amended 6 [MenuOp.next] mainMenuSt (by decide) rfl rfl

/-- C6: on the Menu screen, Next followed by Prev returns
`selectedIndex` to its original value, for every item count `n ≥ 1`
and every in-range starting index. -/
theorem c6_next_prev_roundtrip (n : Nat) (s : St) (hn : 1 ≤ n)
    (h0 : 0 ≤ s.selectedMenuIndex) (h1 : s.selectedMenuIndex < (n : Int)) :
    (menuPrev n (menuNext n s)).selectedMenuIndex = s.selectedMenuIndex := by
  have hpos : (0 : Int) < (n : Int) := by exact_mod_cast hn
  have hsel : (menuNext n s).selectedMenuIndex = (s.selectedMenuIndex + 1) % (n : Int) := rfl
  have hprev := (menuPrev_fields n (menuNext n s)).1
  rw [hsel] at hprev
  rcases eq_or_lt_of_le (by omega : s.selectedMenuIndex + 1 ≤ (n : Int)) with heq | hlt
  · have hmod : (s.selectedMenuIndex + 1) % (n : Int) = 0 := by
      rw [heq]
      exact Int.emod_self
    rw [hmod] at hprev
    rw [hprev, if_pos (show (0 : Int) - 1 < 0 by norm_num)]
    omega
  · have hmod : (s.selectedMenuIndex + 1) % (n : Int) = s.selectedMenuIndex + 1 :=
      Int.emod_eq_of_lt (by omega) hlt
    rw [hmod] at hprev
    rw [hprev, if_neg (show ¬ (s.selectedMenuIndex + 1 - 1 < 0) by omega)]
    omega

theorem c6_next_prev_roundtrip_witness :
    (menuPrev 6 (menuNext 6 mainMenuSt)).selectedMenuIndex = mainMenuSt.selectedMenuIndex :=
  c6_next_prev_roundtrip 6 mainMenuSt (by decide) (by decide) (by decide)

/-- C9: on the Menu screen, Prev retreats `selectedIndex` by 1;
from index 0 it wraps to the last index and snaps the offset to
`max 0 (n − visibleRows)`; otherwise, when the new index falls above
the visible window the offset becomes the new index, else the offset
is unchanged. -/
theorem c9_menu_prev_wrap (n : Nat) (s : St) :
    (s.selectedMenuIndex = 0 →
      (menuPrev n s).selectedMenuIndex = (n : Int) - 1 ∧
      (menuPrev n s).menuOffset = max 0 ((n : Int) - maxItemsOnScreen)) ∧
    (0 < s.selectedMenuIndex →
      (menuPrev n s).selectedMenuIndex = s.selectedMenuIndex - 1 ∧
      (menuPrev n s).menuOffset =
        (if s.selectedMenuIndex - 1 < s.menuOffset then s.selectedMenuIndex - 1
         else s.menuOffset)) := by
  obtain ⟨hs, ho⟩ := menuPrev_fields n s
  constructor
  · intro hz
    rw [hz] at hs ho
    refine ⟨?_, ?_⟩
    · rw [hs, if_pos (show (0 : Int) - 1 < 0 by norm_num)]
    · rw [ho, if_pos (show (0 : Int) - 1 < 0 by norm_num)]
  · intro hp
    have hc : ¬ (s.selectedMenuIndex - 1 < 0) := by omega
    exact ⟨by rw [hs, if_neg hc], by rw [ho, if_neg hc]⟩

theorem c9_menu_prev_wrap_witness :
    (menuPrev 6 mainMenuSt).selectedMenuIndex = 5 ∧
    (menuPrev 6 mainMenuSt).menuOffset = 1 := by
  have h := (c9_menu_prev_wrap 6 mainMenuSt).1 rfl
  obtain ⟨h1, h2⟩ := h
  refine ⟨?_, ?_⟩
  · rw [h1]
    norm_num
  · rw [h2]
    norm_num [maxItemsOnScreen]

/-- C10 counterexample: the cleaned filename `" - Song"` contains
the separator `" - "` (at index 0), so the claim dictates a split
(artist `""`, title `"Song"`); the code requires
`indexOf(" - ") > 0` and does not split, leaving title `" - Song"`
and artist `"Unknown Artist"`. -/
theorem c10_filename_fallback_counterexample :
    Meta0.songMeta (String.toList Meta0.sepFileName) Meta0.noTags ≠
      Meta0.specFallback (Meta0.removeMp3 (String.toList Meta0.sepFileName)) := by
  decide

/-- C10 amended: when tag extraction yields nothing, the metadata of
a scanned file is the filename-heuristic fallback that splits at the
first occurrence of `" - "` only when that occurrence is at a
strictly positive index; otherwise title is the cleaned filename,
artist `"Unknown Artist"`, album `"Unknown Album"`. -/
theorem c10_filename_fallback_amended (filename : List Char) :
    Meta0.songMeta filename Meta0.noTags =
      Meta0.specFallbackAmended (Meta0.removeMp3 filename) := by
  simp only [Meta0.songMeta, Meta0.noTags, Meta0.specFallbackAmended]
  cases h : Meta0.sepIndex (Meta0.removeMp3 filename) with
  | none => simp
  | some d =>
    by_cases hd : 0 < d
    · simp [hd]
    · simp [hd]

/-- C2: while Playing, for a pair of Prev edges whose first edge was
a rewind (recorded at `t1`): a second edge strictly less than 300 ms
later stops playback, returns to the Menu screen showing the menu
from before Playing, and resets the double-click timestamp to the
sentinel 0; a second edge 300 ms or more later is a further rewind
(elapsed reset to 0, its time recorded) with no screen change. -/
theorem c2_playing_prev_double_click (s0 : St) (t1 t2 : Nat)
    (hplay : s0.currentState = Screen.playing)
    (hfirst : doubleClickMs ≤ t1 - s0.lastPrevPressTime) :
    (t2 - t1 < doubleClickMs →
      (playingPrev t2 (playingPrev t1 s0)).currentState = Screen.menu ∧
      (playingPrev t2 (playingPrev t1 s0)).isPlaying = false ∧
      (playingPrev t2 (playingPrev t1 s0)).decoderRunning = false ∧
      (playingPrev t2 (playingPrev t1 s0)).currentMenu = s0.currentMenu ∧
      (playingPrev t2 (playingPrev t1 s0)).lastPrevPressTime = 0) ∧
    (doubleClickMs ≤ t2 - t1 →
      (playingPrev t1 s0).currentSongTimeSec = 0 ∧
      (playingPrev t1 s0).lastPrevPressTime = t1 ∧
      (playingPrev t1 s0).currentState = s0.currentState ∧
      (playingPrev t2 (playingPrev t1 s0)).currentSongTimeSec = 0 ∧
      (playingPrev t2 (playingPrev t1 s0)).lastPrevPressTime = t2 ∧
      (playingPrev t2 (playingPrev t1 s0)).currentState = s0.currentState ∧
      (playingPrev t2 (playingPrev t1 s0)).isPlaying = s0.isPlaying) := by
  have h1 : ¬ (t1 - s0.lastPrevPressTime < doubleClickMs) := by omega
  have e1 : playingPrev t1 s0 =
      { s0 with
        prevSongTimeSec := s0.currentSongTimeSec
        currentSongTimeSec := 0
        lastPrevPressTime := t1
        needsRedraw := true } := by
    simp only [playingPrev, if_neg h1]
  constructor
  · intro h2
    rw [e1]
    simp only [playingPrev]
    rw [if_pos (show t2 - t1 < doubleClickMs from h2)]
    refine ⟨?_, ?_, ?_, ?_, ?_⟩ <;> trivial
  · intro h2
    have h2n : ¬ (t2 - t1 < doubleClickMs) := by omega
    rw [e1]
    simp only [playingPrev]
    rw [if_neg h2n]
    refine ⟨?_, ?_, ?_, ?_, ?_, ?_, ?_⟩ <;> trivial

theorem c2_playing_prev_double_click_witness :
    (playingPrev 1100 (playingPrev 1000 playingSt)).currentState = Screen.menu :=
  ((c2_playing_prev_double_click playingSt 1000 1100 rfl (by decide)).1 (by decide)).1

/-- C4: selecting the last menu item (index `length − 1`) is Back
navigation for every menu and every item list, handled before any
menu-specific dispatch: Main goes to the Home screen, a sub-menu
goes to the Main menu, selection and scroll reset to `(0, 0)`, and
no playback dispatch happens. -/
theorem c4_select_last_item_back (env : Env) (songs : List Song) (s : St)
    (h : s.selectedMenuIndex = (s.currentMenuItems.length : Int) - 1) :
    (s.currentMenu = Menu.mmain →
      (menuSelect env songs s).currentState = Screen.home ∧
      (menuSelect env songs s).currentMenu = Menu.mmain) ∧
    (s.currentMenu ≠ Menu.mmain →
      (menuSelect env songs s).currentMenu = Menu.mmain ∧
      (menuSelect env songs s).currentState = s.currentState) ∧
    (menuSelect env songs s).selectedMenuIndex = 0 ∧
    (menuSelect env songs s).menuOffset = 0 ∧
    (menuSelect env songs s).isPlaying = s.isPlaying ∧
    (menuSelect env songs s).decoderRunning = s.decoderRunning := by
  have e : menuSelect env songs s = handleBackButton songs s := by
    simp only [menuSelect, if_pos h]
  rw [e]
  unfold handleBackButton
  cases hm : s.currentMenu
  case mmain =>
    refine ⟨fun _ => ⟨rfl, rfl⟩, fun hne => absurd rfl hne, rfl, rfl, rfl, rfl⟩
  case martists =>
    refine ⟨?_, ?_, rfl, rfl, rfl, rfl⟩
    · intro hmm
      exact absurd hmm (by simp)
    · intro _
      exact ⟨rfl, rfl⟩
  case malbums =>
    refine ⟨?_, ?_, rfl, rfl, rfl, rfl⟩
    · intro hmm
      exact absurd hmm (by simp)
    · intro _
      exact ⟨rfl, rfl⟩
  case msongs =>
    refine ⟨?_, ?_, rfl, rfl, rfl, rfl⟩
    · intro hmm
      exact absurd hmm (by simp)
    · intro _
      exact ⟨rfl, rfl⟩

theorem c4_select_last_item_back_witness :
    (menuSelect envAllOk cat3 mainBackSt).currentState = Screen.home :=
  ((c4_select_last_item_back envAllOk cat3 mainBackSt (by decide)).1 rfl).1

/-- `startPlayback` when the bounds check, the file open and the
`.mp3` extension check all pass. -/
theorem startPlayback_success (env : Env) (songs : List Song) (idx : Int) (s : St)
    (h0 : 0 ≤ idx) (h1 : idx < (songs.length : Int))
    (hopen : env.openOk idx.toNat = true)
    (hmp3 : strEndsWith (musicDir ++ (songs.getD idx.toNat defaultSong).filename) mp3Ext
      = true) :
    startPlayback env songs idx s =
      { s with
        playingSongIndex := idx
        decoderRunning := true
        sourceOpen := true
        songDurationSec :=
          if env.duration idx.toNat ≤ 0 then 1 else env.duration idx.toNat
        isPlaying := true
        currentSongTimeSec := 0
        prevSongTimeSec := -1
        needsRedraw := true
        needsFullRedraw := true } := by
  have hg : ¬ (idx < 0 ∨ (songs.length : Int) ≤ idx) := by omega
  simp only [startPlayback, if_neg hg, hopen, hmp3]
  rfl

/-- C5: Next while Playing with a catalog of `N ≥ 1` tracks moves
`playingTrackIndex` to `(old + 1) mod N`, resets elapsed time to 0
and starts playback of the new track (given the new track's file
opens and is an `.mp3`). -/
theorem c5_next_song_mod (env : Env) (songs : List Song) (s : St)
    (hN : 1 ≤ songs.length) (h0 : 0 ≤ s.playingSongIndex)
    (hopen : env.openOk ((s.playingSongIndex + 1) % (songs.length : Int)).toNat = true)
    (hmp3 : strEndsWith
      (musicDir ++
        (songs.getD ((s.playingSongIndex + 1) % (songs.length : Int)).toNat
          defaultSong).filename)
      mp3Ext = true) :
    ∃ s2, handleNextSong env songs s = some s2 ∧
      s2.playingSongIndex = (s.playingSongIndex + 1) % (songs.length : Int) ∧
      s2.currentSongTimeSec = 0 ∧
      s2.isPlaying = true ∧
      s2.prevPlayingSongIndex = s.playingSongIndex := by
  have hne0 : ¬ (songs.length = 0) := by omega
  have hpos : (0 : Int) < (songs.length : Int) := by exact_mod_cast hN
  have hmn : 0 ≤ (s.playingSongIndex + 1) % (songs.length : Int) :=
    Int.emod_nonneg _ hpos.ne'
  have hml : (s.playingSongIndex + 1) % (songs.length : Int) < (songs.length : Int) :=
    Int.emod_lt_of_pos _ hpos
  have e1 : handleNextSong env songs s =
      some (startPlayback env songs ((s.playingSongIndex + 1) % (songs.length : Int))
        { s with prevPlayingSongIndex := s.playingSongIndex }) := by
    simp only [handleNextSong, if_neg hne0]
  rw [e1, startPlayback_success env songs _ _ hmn hml hopen hmp3]
  exact ⟨_, rfl, rfl, rfl, rfl, rfl⟩

theorem c5_next_song_mod_witness :
    ∃ s2, handleNextSong envAllOk cat3 playingSt = some s2 ∧
      s2.playingSongIndex = (playingSt.playingSongIndex + 1) % (cat3.length : Int) ∧
      s2.currentSongTimeSec = 0 ∧
      s2.isPlaying = true ∧
      s2.prevPlayingSongIndex = playingSt.playingSongIndex :=
  c5_next_song_mod envAllOk cat3 playingSt (by decide) (by decide) (by decide) (by decide)

/-- C7 counterexample: with a track whose file cannot be opened,
Select on the Songs menu leaves the player on the Playing screen,
not on the Menu screen it was on before the attempt. -/
theorem c7_playback_open_error_counterexample :
    songsMenuSt.currentState = Screen.menu ∧
    (menuSelect envNoOpen cat3 songsMenuSt).currentState = Screen.playing ∧
    (menuSelect envNoOpen cat3 songsMenuSt).currentState ≠ songsMenuSt.currentState := by
  decide

/-- C7 amended: when the file fails to open, `startPlayback` aborts
before starting the decoder, leaving the decoder stopped, the source
closed, and `isPlaying`, elapsed time and the screen exactly as it
found them — but the Songs-menu selection path has already switched
the screen to Playing before the attempt, so after a failed
selection the player shows the Playing screen with `isPlaying`
keeping its prior value. -/
theorem c7_playback_open_error_amended :
    (∀ (env : Env) (songs : List Song) (idx : Int) (s : St),
      0 ≤ idx → idx < (songs.length : Int) → env.openOk idx.toNat = false →
      startPlayback env songs idx s =
        { s with playingSongIndex := idx, decoderRunning := false, sourceOpen := false }) ∧
    (∀ (env : Env) (songs : List Song) (s : St),
      s.currentMenu = Menu.msongs →
      ¬ (s.selectedMenuIndex = (s.currentMenuItems.length : Int) - 1) →
      0 ≤ s.selectedMenuIndex → s.selectedMenuIndex < (songs.length : Int) →
      env.openOk s.selectedMenuIndex.toNat = false →
      (menuSelect env songs s).currentState = Screen.playing ∧
      (menuSelect env songs s).isPlaying = s.isPlaying ∧
      (menuSelect env songs s).currentSongTimeSec = s.currentSongTimeSec ∧
      (menuSelect env songs s).decoderRunning = false ∧
      (menuSelect env songs s).sourceOpen = false) := by
  have habort : ∀ (env : Env) (songs : List Song) (idx : Int) (s : St),
      0 ≤ idx → idx < (songs.length : Int) → env.openOk idx.toNat = false →
      startPlayback env songs idx s =
        { s with playingSongIndex := idx, decoderRunning := false, sourceOpen := false } := by
    intro env songs idx s h0 h1 hfail
    have hg : ¬ (idx < 0 ∨ (songs.length : Int) ≤ idx) := by omega
    simp only [startPlayback, if_neg hg, hfail]
    rfl
  refine ⟨habort, ?_⟩
  intro env songs s hmenu hne h0 h1 hfail
  have e : menuSelect env songs s =
      startPlayback env songs s.selectedMenuIndex { s with currentState := Screen.playing } := by
    simp only [menuSelect, if_neg hne, hmenu]
  rw [e, habort env songs s.selectedMenuIndex _ h0 h1 hfail]
  exact ⟨rfl, rfl, rfl, rfl, rfl⟩

theorem c7_playback_open_error_amended_witness :
    (menuSelect envNoOpen cat3 songsMenuSt).isPlaying = songsMenuSt.isPlaying ∧
    (menuSelect envNoOpen cat3 songsMenuSt).decoderRunning = false :=
  ⟨(c7_playback_open_error_amended.2 envNoOpen cat3 songsMenuSt rfl (by decide)
      (by decide) (by decide) rfl).2.1,
   (c7_playback_open_error_amended.2 envNoOpen cat3 songsMenuSt rfl (by decide)
      (by decide) (by decide) rfl).2.2.2.1⟩

/-- C8: with a pending full redraw on the Playing screen (and valid
current values), `updateDisplay` resets every shadow to a value
unequal to its current counterpart and therefore repaints every
dynamic region in the very next partial update, leaving the shadows
holding the current values and the full-redraw flag clear. -/
theorem c8_full_redraw_repaints_all (s : St)
    (hscr : s.currentState = Screen.playing)
    (hfull : s.needsFullRedraw = true)
    (hidx : 0 ≤ s.playingSongIndex)
    (htime : 0 ≤ s.currentSongTimeSec) :
    (updateDisplay s).2.songInfo = true ∧
    (updateDisplay s).2.progress = true ∧
    (updateDisplay s).2.playPause = true ∧
    (updateDisplay s).1.prevPlayingSongIndex = s.playingSongIndex ∧
    (updateDisplay s).1.prevSongTimeSec = s.currentSongTimeSec ∧
    (updateDisplay s).1.prevIsPlaying = s.isPlaying ∧
    (updateDisplay s).1.needsFullRedraw = false := by
  have hnz1 : ¬ (s.playingSongIndex = (-1 : Int)) := by omega
  have hnz2 : ¬ (s.currentSongTimeSec = (-1 : Int)) := by omega
  cases h2 : s.isPlaying
  all_goals by_cases hprev : s.previousState = Screen.playing
  · simp [updateDisplay, hscr, hfull, hprev, hnz1, hnz2, h2]
  · simp [updateDisplay, hscr, hfull, hprev, Ne.symm hprev, hnz1, hnz2, h2]
  · simp [updateDisplay, hscr, hfull, hprev, hnz1, hnz2, h2]
  · simp [updateDisplay, hscr, hfull, hprev, Ne.symm hprev, hnz1, hnz2, h2]

theorem c8_full_redraw_repaints_all_witness :
    (updateDisplay pfrSt).2.songInfo = true ∧
    (updateDisplay pfrSt).2.progress = true ∧
    (updateDisplay pfrSt).2.playPause = true ∧
    (updateDisplay pfrSt).1.prevPlayingSongIndex = pfrSt.playingSongIndex ∧
    (updateDisplay pfrSt).1.prevSongTimeSec = pfrSt.currentSongTimeSec ∧
    (updateDisplay pfrSt).1.prevIsPlaying = pfrSt.isPlaying ∧
    (updateDisplay pfrSt).1.needsFullRedraw = false :=
  c8_full_redraw_repaints_all pfrSt rfl rfl (by decide) (by decide)

end Ipod
